import Mathlib

/-!
Verification of the batch MP3 to WAV converter (convert_mp3_to_wav.py).

The script is a thin orchestration layer: it validates the input folder,
creates the output folder when absent, filters the directory listing to
names ending case-insensitively in .mp3, and converts each matched file
through the external pydub/ffmpeg toolchain, catching per-file failures.

The embedding below models the Python string and os.path helpers the script
uses (restricted to ASCII text and POSIX paths), models the ambient effects
(filesystem and codec toolchain) as an explicit environment of functions
returning Except values, and renders the script as pure functions producing
a log of console lines, exported files and created directories.
-/

/-- ASCII model of the Python method str.lower: each character is mapped
through Char.toLower. -/
def pyLower (s : String) : String := ⟨s.data.map Char.toLower⟩

/-- Model of the Python method str.endswith: the suffix test on strings. -/
def pyEndsWith (s t : String) : Bool := t.data.isSuffixOf s.data

/-- Helper for the Python containment test sub in s on lists of characters:
true when the first list occurs contiguously inside the second. -/
def listContains (sub : List Char) : List Char → Bool
  | [] => sub.isEmpty
  | c :: rest => sub.isPrefixOf (c :: rest) || listContains sub rest

/-- Model of the Python containment test sub in s on strings. -/
def pyContains (s sub : String) : Bool := listContains sub.data s.data

/-- Model of the Python method str.strip with no argument: remove whitespace
from both ends of the string. -/
def pyStrip (s : String) : String :=
  ⟨((s.data.dropWhile Char.isWhitespace).reverse.dropWhile Char.isWhitespace).reverse⟩

/-- Model of the Python method str.rfind for a single character: the largest
index at which the character occurs in the list, or -1 when it does not
occur. -/
def rfind : List Char → Char → Int
  | [], _ => -1
  | c :: cs, t =>
    let r := rfind cs t
    if 0 ≤ r then r + 1
    else if c = t then 0 else -1

/-- Model of os.path.splitext on POSIX paths, following genericpath._splitext:
split off the extension starting at the last dot after the last separator,
unless every character of the base name before that dot is itself a dot, in
which case nothing is split (a leading-dot name such as .mp3 keeps its whole
name and the extension is empty). -/
def splitext (p : String) : String × String :=
  let sepIndex := rfind p.data '/'
  let dotIndex := rfind p.data '.'
  if sepIndex < dotIndex then
    let stem := (p.data.take dotIndex.toNat).drop (sepIndex + 1).toNat
    if stem.any (fun c => c ≠ '.') then
      (⟨p.data.take dotIndex.toNat⟩, ⟨p.data.drop dotIndex.toNat⟩)
    else (p, "")
  else (p, "")

/-- Model of os.path.join on POSIX paths for two arguments. -/
def pyJoin (a b : String) : String :=
  if ("/").data.isPrefixOf b.data then b
  else if a = ("") ∨ (("/").data.isSuffixOf a.data) = true then a ++ b
  else a ++ ("/") ++ b

/-- Abstract decoded audio as exposed by the external codec toolchain: pydub
presents a frame rate (sample rate), a channel count and the raw samples. -/
structure AudioSegment where
  frame_rate : Nat
  channels : Nat
  samples : List Int
deriving Repr, DecidableEq

/-- Modelled from the spec: pydub set_frame_rate, the external resampling step
(the spec step resample to 16,000 Hz). The samples are abstract here, so the
operation is recorded as updating the frame rate. -/
def AudioSegment.set_frame_rate (a : AudioSegment) (r : Nat) : AudioSegment :=
  { a with frame_rate := r }

/-- Modelled from the spec: pydub set_channels, the external remixing step
(the spec step remix to 1 channel). Recorded as updating the channel count. -/
def AudioSegment.set_channels (a : AudioSegment) (c : Nat) : AudioSegment :=
  { a with channels := c }

/-- The ambient effects the script calls into: the os filesystem tests,
directory listing and directory creation, and the pydub/ffmpeg toolchain
(decoding an mp3, probing an arbitrary file, exporting a segment as wav).
Every fallible call yields an Except value; error e models a raised Python
exception whose message is e. makedirs models os.makedirs with exist_ok set,
creating intermediate directories as needed. -/
structure Env where
  isdir : String → Bool
  listdir : String → List String
  makedirs : String → Except String Unit
  from_mp3 : String → Except String AudioSegment
  from_file : String → Except String AudioSegment
  export_wav : String → AudioSegment → Except String Unit

/-- Observable outcome of a run: console lines in order, exported wav files as
pairs of path and audio in order, and the directories created. -/
structure RunLog where
  printed : List String
  written : List (String × AudioSegment)
  created : List String
deriving Repr, DecidableEq

/-- Concatenation of two run logs, field by field. -/
def RunLog.append (x y : RunLog) : RunLog :=
  ⟨x.printed ++ y.printed, x.written ++ y.written, x.created ++ y.created⟩

/-- The empty run log. -/
def emptyLog : RunLog := ⟨[], [], []⟩

/-- The output file name computed in the loop body of convert_mp3_to_wav:
os.path.splitext applied to the input name, first component, plus .wav. -/
def output_filename (mp3_file : String) : String :=
  (splitext mp3_file).1 ++ (".wav")

/-- One iteration of the conversion loop of convert_mp3_to_wav: print the
processing line, decode with pydub, set the frame rate to 16000 and then the
channels to 1, export as wav to the joined output path; a raised exception
from decoding or exporting is caught and reported as a failure line naming
the file and the error, and nothing is written for that file. (The Python
messages wrap the file name in single quotes; the quotes are elided here.) -/
def processFile (env : Env) (input_folder output_folder mp3_file : String) : RunLog :=
  let input_path := pyJoin input_folder mp3_file
  let output_path := pyJoin output_folder (output_filename mp3_file)
  let header := ("Processing: ") ++ mp3_file ++ (" -> ") ++ output_filename mp3_file
  match env.from_mp3 input_path with
  | Except.error e => ⟨[header, ("Failed to convert ") ++ mp3_file ++ (": ") ++ e], [], []⟩
  | Except.ok audio =>
    let out := (audio.set_frame_rate 16000).set_channels 1
    match env.export_wav output_path out with
    | Except.error e => ⟨[header, ("Failed to convert ") ++ mp3_file ++ (": ") ++ e], [], []⟩
    | Except.ok _ => ⟨[header, ("Saved WAV to: ") ++ output_path], [(output_path, out)], []⟩

/-- The loop over mp3_files in convert_mp3_to_wav: the effects of the
iterations, concatenated in order. -/
def convertLoop (env : Env) (input_folder output_folder : String) (files : List String) : RunLog :=
  files.foldl (fun log f => log.append (processFile env input_folder output_folder f)) emptyLog

/-- The file filter of convert_mp3_to_wav: keep names whose lowercasing ends
with .mp3. -/
def mp3Filter (files : List String) : List String :=
  files.filter (fun f => pyEndsWith (pyLower f) (".mp3"))

/-- Model of convert_mp3_to_wav: report and return when the input folder is
not a directory; otherwise create the output folder when absent (an exception
raised by makedirs is not caught there, so it escapes as Except.error), list
the input folder, filter to mp3 names, and convert each matched file. -/
def convert_mp3_to_wav (env : Env) (input_folder output_folder : String) : Except String RunLog :=
  if env.isdir input_folder = false then
    Except.ok ⟨[("Error: Input folder ") ++ input_folder ++ (" does not exist.")], [], []⟩
  else
    let afterDirs : Except String (List String) :=
      if env.isdir output_folder = false then
        match env.makedirs output_folder with
        | Except.error e => Except.error e
        | Except.ok _ => Except.ok [output_folder]
      else Except.ok []
    match afterDirs with
    | Except.error e => Except.error e
    | Except.ok created =>
      let mp3_files := mp3Filter (env.listdir input_folder)
      Except.ok (RunLog.append ⟨[], [], created⟩
        (convertLoop env input_folder output_folder mp3_files))

/-- The two optional command line flags of main. -/
structure Args where
  input_folder : Option String
  output_folder : Option String

/-- The interactive prompt for the input folder. -/
def promptIn : String := "Enter the path to your MP3 files folder: "

/-- The interactive prompt for the output folder. -/
def promptOut : String := "Enter the path where WAV files should be saved: "

/-- Resolution of one folder in main: a flag value is used as given; an
omitted flag prompts on standard output and reads one stripped line from
standard input (the Python builtin input followed by .strip). Reading at end
of input models the EOFError Python raises there. The result carries the
resolved value, the remaining input lines and the prompt lines printed. -/
def readFolder (flag : Option String) (prompt : String) (stdin : List String) :
    Except String (String × List String × List String) :=
  match flag with
  | some v => Except.ok (v, stdin, [])
  | none =>
    match stdin with
    | [] => Except.error ("EOFError")
    | line :: rest => Except.ok (pyStrip line, rest, [prompt])

/-- The installation guidance main prints when the toolchain probe raises an
error mentioning ffmpeg. -/
def ffmpegGuidance : List String :=
  [("\nError: FFmpeg is not installed. Please install FFmpeg:"),
   ("Windows (using chocolatey): choco install ffmpeg"),
   ("Or download from: https://ffmpeg.org/download.html")]

/-- Prepend already-printed lines to the log of a later computation. -/
def prependPrinted (ls : List String) : Except String RunLog → Except String RunLog
  | Except.error e => Except.error e
  | Except.ok log => Except.ok ⟨ls ++ log.printed, log.written, log.created⟩

/-- Model of main: resolve the two folders from flags or interactive prompts,
probe the toolchain by attempting to decode the file named test, print the
installation guidance and return (running no conversion) when the probe
raises an error whose lowercased message contains ffmpeg, and otherwise run
convert_mp3_to_wav on the resolved folders. (The name main is reserved by
Lean, hence the suffixed name.) -/
def main_model (env : Env) (args : Args) (stdin : List String) : Except String RunLog :=
  match readFolder args.input_folder promptIn stdin with
  | Except.error e => Except.error e
  | Except.ok (input_folder, stdin1, pr1) =>
    match readFolder args.output_folder promptOut stdin1 with
    | Except.error e => Except.error e
    | Except.ok (output_folder, _, pr2) =>
      match env.from_file ("test") with
      | Except.error e =>
        if pyContains (pyLower e) ("ffmpeg") then
          Except.ok ⟨pr1 ++ pr2 ++ ffmpegGuidance, [], []⟩
        else prependPrinted (pr1 ++ pr2) (convert_mp3_to_wav env input_folder output_folder)
      | Except.ok _ => prependPrinted (pr1 ++ pr2) (convert_mp3_to_wav env input_folder output_folder)

/-! ### Concrete environments used by the witnesses -/

/-- A fixed stereo 44100 Hz source used in the concrete runs below. -/
def sampleAudio : AudioSegment := ⟨44100, 2, [1, -1, 2]⟩

/-- Both folders exist, one matching file and one text file are listed, and
every toolchain call succeeds. -/
def envDemo : Env :=
  { isdir := fun _ => true
    listdir := fun _ => [("song.mp3"), ("notes.txt")]
    makedirs := fun _ => Except.ok ()
    from_mp3 := fun _ => Except.ok sampleAudio
    from_file := fun _ => Except.ok sampleAudio
    export_wav := fun _ _ => Except.ok () }

/-- Both folders exist and the middle listed file fails to decode. -/
def envBatch : Env :=
  { isdir := fun _ => true
    listdir := fun _ => [("good.mp3"), ("bad.mp3"), ("tail.mp3")]
    makedirs := fun _ => Except.ok ()
    from_mp3 := fun p =>
      if p = ("in/bad.mp3") then Except.error ("decode error") else Except.ok sampleAudio
    from_file := fun _ => Except.ok sampleAudio
    export_wav := fun _ _ => Except.ok () }

/-- No directory exists at all. -/
def envNoInput : Env :=
  { isdir := fun _ => false
    listdir := fun _ => []
    makedirs := fun _ => Except.ok ()
    from_mp3 := fun _ => Except.error ("unused")
    from_file := fun _ => Except.ok sampleAudio
    export_wav := fun _ _ => Except.ok () }

/-- Only the input folder exists and creating the output folder fails. -/
def envMkFail : Env :=
  { isdir := fun p => p == ("in")
    listdir := fun _ => []
    makedirs := fun _ => Except.error ("cannot create")
    from_mp3 := fun _ => Except.ok sampleAudio
    from_file := fun _ => Except.ok sampleAudio
    export_wav := fun _ _ => Except.ok () }

/-- Only the input folder exists, the listing holds no matching name, and
creating the output folder succeeds. -/
def envNoMatch : Env :=
  { isdir := fun p => p == ("in")
    listdir := fun _ => [("readme.txt")]
    makedirs := fun _ => Except.ok ()
    from_mp3 := fun _ => Except.ok sampleAudio
    from_file := fun _ => Except.ok sampleAudio
    export_wav := fun _ _ => Except.ok () }

/-- The toolchain probe raises a message naming ffmpeg. -/
def envNoFfmpeg : Env :=
  { isdir := fun _ => true
    listdir := fun _ => [("song.mp3")]
    makedirs := fun _ => Except.ok ()
    from_mp3 := fun _ => Except.ok sampleAudio
    from_file := fun _ => Except.error ("FFmpeg was not found")
    export_wav := fun _ _ => Except.ok () }

/-! ### Helper lemmas about characters and lowercasing -/

/-- Only the dot lowercases to a dot: Char.toLower maps the range 65 to 90
into 97 to 122, which misses the code point 46. -/
lemma toLower_eq_dot {c : Char} (h : c.toLower = '.') : c = '.' := by
  unfold Char.toLower at h
  by_cases hn : c.toNat ≥ 65 ∧ c.toNat ≤ 90
  · rw [if_pos hn] at h
    exfalso
    have hval := congrArg Char.val h
    rw [Char.ofNat, dif_pos (Or.inl (by omega))] at hval
    have htn := congrArg UInt32.toNat hval
    simp only [Char.ofNatAux, UInt32.toNat] at htn
    rw [BitVec.toNat_ofNatLt] at htn
    have hdot : ('.').val.toBitVec.toNat = 46 := by decide
    omega
  · rw [if_neg hn] at h
    exact h

/-- A character whose lowercasing is not a dot is not a dot. -/
lemma ne_dot_of_toLower {c : Char} {x : Char} (h : c.toLower = x) (hx : x ≠ '.') :
    c ≠ '.' := by
  intro hc
  subst hc
  exact hx (by simpa using h.symm)

/-! ### Helper lemmas about run logs and the conversion loop -/

@[simp] lemma RunLog.printed_append (x y : RunLog) :
    (x.append y).printed = x.printed ++ y.printed := rfl

@[simp] lemma RunLog.written_append (x y : RunLog) :
    (x.append y).written = x.written ++ y.written := rfl

@[simp] lemma RunLog.created_append (x y : RunLog) :
    (x.append y).created = x.created ++ y.created := rfl

lemma RunLog.append_assoc (x y z : RunLog) :
    (x.append y).append z = x.append (y.append z) := by
  simp [RunLog.append, List.append_assoc]

@[simp] lemma RunLog.append_empty (x : RunLog) : x.append emptyLog = x := by
  cases x
  simp [RunLog.append, emptyLog]

@[simp] lemma RunLog.empty_append (x : RunLog) : emptyLog.append x = x := by
  cases x
  simp [RunLog.append, emptyLog]

lemma convertLoop_nil (env : Env) (i o : String) : convertLoop env i o [] = emptyLog := rfl

/-- The loop fold started from any accumulated log equals that log followed by
the effects of the loop run on its own. -/
lemma foldl_logs (env : Env) (i o : String) (fs : List String) (log : RunLog) :
    fs.foldl (fun l f => l.append (processFile env i o f)) log
      = log.append (fs.foldl (fun l f => l.append (processFile env i o f)) emptyLog) := by
  induction fs generalizing log with
  | nil => simp
  | cons f fs ih =>
    rw [List.foldl_cons, List.foldl_cons, ih (log.append (processFile env i o f)),
      ih (emptyLog.append (processFile env i o f)), RunLog.empty_append, RunLog.append_assoc]

/-- The loop fold from an arbitrary starting log, phrased with convertLoop. -/
lemma convertLoop_foldl (env : Env) (i o : String) (fs : List String) (log : RunLog) :
    fs.foldl (fun l f => l.append (processFile env i o f)) log
      = log.append (convertLoop env i o fs) :=
  foldl_logs env i o fs log

lemma convertLoop_cons (env : Env) (i o f : String) (fs : List String) :
    convertLoop env i o (f :: fs)
      = (processFile env i o f).append (convertLoop env i o fs) := by
  have h := convertLoop_foldl env i o fs (emptyLog.append (processFile env i o f))
  rw [RunLog.empty_append] at h
  exact h

lemma convertLoop_append_list (env : Env) (i o : String) (fs gs : List String) :
    convertLoop env i o (fs ++ gs)
      = (convertLoop env i o fs).append (convertLoop env i o gs) := by
  simp only [convertLoop, List.foldl_append]
  exact foldl_logs env i o gs _

/-- Any file recorded as written by one loop iteration is the decoded source
resampled to 16000 and remixed to one channel, at the joined output path. -/
lemma processFile_written (env : Env) (i o f : String) :
    ∀ x ∈ (processFile env i o f).written, ∃ a : AudioSegment,
      env.from_mp3 (pyJoin i f) = Except.ok a ∧
      x = (pyJoin o (output_filename f), (a.set_frame_rate 16000).set_channels 1) := by
  intro x hx
  simp only [processFile] at hx
  split at hx
  · simp at hx
  · rename_i a ha
    split at hx
    · simp at hx
    · simp at hx
      exact ⟨a, ha, hx⟩

/-- Any file recorded as written by the loop comes from one of its
iterations. -/
lemma convertLoop_written (env : Env) (i o : String) (fs : List String) :
    ∀ x ∈ (convertLoop env i o fs).written,
      ∃ f, f ∈ fs ∧ x ∈ (processFile env i o f).written := by
  induction fs with
  | nil => intro x hx; simp [convertLoop, emptyLog] at hx
  | cons f fs ih =>
    intro x hx
    rw [convertLoop_cons] at hx
    rcases List.mem_append.mp hx with h | h
    · exact ⟨f, List.mem_cons_self f fs, h⟩
    · obtain ⟨g, hg, hxg⟩ := ih x h
      exact ⟨g, List.mem_cons_of_mem f hg, hxg⟩

/-- A loop iteration whose decoding raises an exception only prints the
processing line and the failure report. -/
lemma processFile_of_decode_error (env : Env) (i o f e : String)
    (h : env.from_mp3 (pyJoin i f) = Except.error e) :
    processFile env i o f
      = ⟨[("Processing: ") ++ f ++ (" -> ") ++ output_filename f,
          ("Failed to convert ") ++ f ++ (": ") ++ e], [], []⟩ := by
  simp only [processFile]
  rw [h]

/-! ### Helper lemmas about the suffix filter and splitext -/

/-- The filter condition of the script holds exactly when the name splits as a
front part followed by a tail whose lowercasing is .mp3. -/
lemma pyEndsWith_lower_iff (f : String) :
    pyEndsWith (pyLower f) (".mp3") = true ↔
      ∃ p t : String, f = p ++ t ∧ pyLower t = (".mp3") := by
  unfold pyEndsWith pyLower
  rw [List.isSuffixOf_iff_suffix]
  constructor
  · rintro ⟨r, hr⟩
    have h4 : (".mp3").data.length = 4 := rfl
    have hlen : r.length + 4 = f.data.length := by
      have hl := congrArg List.length hr
      simp only [List.length_append, List.length_map, h4] at hl
      omega
    have hsplit : f.data.map Char.toLower
        = (f.data.take r.length).map Char.toLower
          ++ (f.data.drop r.length).map Char.toLower := by
      rw [← List.map_append, List.take_append_drop]
    rw [hsplit] at hr
    have hlt : ((f.data.take r.length).map Char.toLower).length = r.length := by
      simp only [List.length_map, List.length_take]
      omega
    have hinj := List.append_inj hr.symm hlt
    refine ⟨⟨f.data.take r.length⟩, ⟨f.data.drop r.length⟩, ?_, ?_⟩
    · apply String.ext
      simp [List.take_append_drop]
    · apply String.ext
      exact hinj.2
  · rintro ⟨p, t, hf, ht⟩
    refine ⟨p.data.map Char.toLower, ?_⟩
    have ht' : t.data.map Char.toLower = (".mp3").data := congrArg String.data ht
    rw [hf]
    show p.data.map Char.toLower ++ (".mp3").data = (p.data ++ t.data).map Char.toLower
    rw [List.map_append, ht']

/-- A four character list lowercasing to .mp3 starts with a dot and continues
with three characters that are not dots. -/
lemma map_toLower_eq_dotmp3 {l : List Char}
    (h : l.map Char.toLower = ['.', 'm', 'p', '3']) :
    ∃ b c d, l = ['.', b, c, d] ∧ b ≠ '.' ∧ c ≠ '.' ∧ d ≠ '.' := by
  rcases l with _ | ⟨a, _ | ⟨b, _ | ⟨c, _ | ⟨d, _ | ⟨e, rest⟩⟩⟩⟩⟩ <;>
    simp only [List.map_nil, List.map_cons, List.cons.injEq] at h
  · exact absurd h (by simp)
  · exact absurd h (by simp)
  · exact absurd h (by simp)
  · exact absurd h (by simp)
  · obtain ⟨ha, hb, hc, hd, -⟩ := h
    have ha' : a = '.' := toLower_eq_dot ha
    subst ha'
    exact ⟨b, c, d, rfl, ne_dot_of_toLower hb (by decide),
      ne_dot_of_toLower hc (by decide), ne_dot_of_toLower hd (by decide)⟩
  · obtain ⟨-, -, -, -, hbad⟩ := h
    exact absurd hbad (by simp)

/-- A name passing the filter ends in a dot followed by three non-dot
characters. -/
lemma matched_data_decomp (f : String) (h : pyEndsWith (pyLower f) (".mp3") = true) :
    ∃ u b c d, f.data = u ++ ['.', b, c, d] ∧ b ≠ '.' ∧ c ≠ '.' ∧ d ≠ '.' := by
  unfold pyEndsWith pyLower at h
  rw [List.isSuffixOf_iff_suffix] at h
  obtain ⟨r, hr⟩ := h
  have h4 : (".mp3").data.length = 4 := rfl
  have hlen : r.length + 4 = f.data.length := by
    have hl := congrArg List.length hr
    simp only [List.length_append, List.length_map, h4] at hl
    omega
  have hsplit : f.data.map Char.toLower
      = (f.data.take r.length).map Char.toLower
        ++ (f.data.drop r.length).map Char.toLower := by
    rw [← List.map_append, List.take_append_drop]
  rw [hsplit] at hr
  have hlt : ((f.data.take r.length).map Char.toLower).length = r.length := by
    simp only [List.length_map, List.length_take]
    omega
  have hinj := List.append_inj hr.symm hlt
  have hv : (f.data.drop r.length).map Char.toLower = ['.', 'm', 'p', '3'] := hinj.2
  obtain ⟨b, c, d, hbcd, hb, hc, hd⟩ := map_toLower_eq_dotmp3 hv
  refine ⟨f.data.take r.length, b, c, d, ?_, hb, hc, hd⟩
  rw [← hbcd, List.take_append_drop]

/-- rfind misses a character absent from the list. -/
lemma rfind_of_not_mem {l : List Char} {c : Char} (h : c ∉ l) : rfind l c = -1 := by
  induction l with
  | nil => rfl
  | cons a l ih =>
    have ha : ¬ a = c := fun e => h (e ▸ List.mem_cons_self a l)
    simp only [rfind]
    rw [ih (fun m => h (List.mem_cons_of_mem a m))]
    norm_num [ha]

/-- rfind locates the dot when everything after it is dot-free. -/
lemma rfind_append_dot {u rest : List Char} (h : ('.') ∉ rest) :
    rfind (u ++ '.' :: rest) '.' = (u.length : Int) := by
  induction u with
  | nil =>
    simp only [List.nil_append, rfind]
    rw [rfind_of_not_mem h]
    norm_num
  | cons a u ih =>
    simp only [List.cons_append, rfind, List.append_eq]
    rw [ih]
    have hge : (0 : Int) ≤ (u.length : Int) := by positivity
    rw [if_pos hge]
    simp only [List.length_cons]
    push_cast
    ring

/-- For a matched name without a path separator, the loop output name strips
the final four characters exactly when some character before them is not a
dot; otherwise splitext finds no extension and .wav is appended to the whole
name. -/
lemma output_filename_of_matched (f : String) (hns : ('/') ∉ f.data)
    (h : pyEndsWith (pyLower f) (".mp3") = true) :
    output_filename f =
      if (f.data.take (f.data.length - 4)).any (fun c => c ≠ '.') then
        (⟨f.data.take (f.data.length - 4)⟩ : String) ++ (".wav")
      else f ++ (".wav") := by
  obtain ⟨u, b, c, d, hdata, hb, hc, hd⟩ := matched_data_decomp f h
  have hlen : f.data.length = u.length + 4 := by rw [hdata]; simp
  have hsub : u.length + 4 - 4 = u.length := by omega
  have htake : f.data.take (f.data.length - 4) = u := by
    rw [hlen, hsub, hdata]
    exact List.take_left u _
  have hnotmem : ('.') ∉ [b, c, d] := by
    intro hm
    rcases List.mem_cons.mp hm with h1 | hm
    · exact hb h1.symm
    rcases List.mem_cons.mp hm with h2 | hm
    · exact hc h2.symm
    rcases List.mem_cons.mp hm with h3 | hm
    · exact hd h3.symm
    · simp at hm
  have hrdot : rfind f.data '.' = (u.length : Int) := by
    rw [hdata]
    exact rfind_append_dot hnotmem
  have hrsep : rfind f.data '/' = -1 := rfind_of_not_mem hns
  have htn : ((u.length : Int)).toNat = u.length := Int.toNat_ofNat u.length
  have htake' : f.data.take u.length = u := by
    rw [hdata]
    exact List.take_left u _
  rw [htake]
  simp only [output_filename, splitext]
  rw [hrdot, hrsep, if_pos (show (-1 : Int) < (u.length : Int) by omega)]
  rw [show ((-1 : Int) + 1).toNat = 0 from rfl]
  rw [htn, List.drop_zero, htake']
  by_cases hany : u.any (fun x => x ≠ '.') = true
  · rw [if_pos hany, if_pos hany]
  · rw [if_neg hany, if_neg hany]

/-- A loop iteration whose export raises an exception only prints the
processing line and the failure report. -/
lemma processFile_of_export_error (env : Env) (i o f e : String) (a : AudioSegment)
    (h1 : env.from_mp3 (pyJoin i f) = Except.ok a)
    (h2 : env.export_wav (pyJoin o (output_filename f))
        ((a.set_frame_rate 16000).set_channels 1) = Except.error e) :
    processFile env i o f
      = ⟨[("Processing: ") ++ f ++ (" -> ") ++ output_filename f,
          ("Failed to convert ") ++ f ++ (": ") ++ e], [], []⟩ := by
  simp only [processFile, h1, h2]

/-- A loop iteration never creates a directory. -/
lemma processFile_created (env : Env) (i o f : String) :
    (processFile env i o f).created = [] := by
  simp only [processFile]
  split
  · rfl
  · split <;> rfl

/-- The loop never creates a directory. -/
lemma convertLoop_created (env : Env) (i o : String) (fs : List String) :
    (convertLoop env i o fs).created = [] := by
  induction fs with
  | nil => rfl
  | cons f fs ih =>
    rw [convertLoop_cons]
    simp [processFile_created, ih]

@[simp] lemma RunLog.nil_append (x : RunLog) :
    RunLog.append ⟨[], [], []⟩ x = x := RunLog.empty_append x

/-- The filter distributes over concatenation of listings. -/
lemma mp3Filter_append (fs gs : List String) :
    mp3Filter (fs ++ gs) = mp3Filter fs ++ mp3Filter gs := by
  simp [mp3Filter, List.filter_append]


/-! ### Claims -/

/-- C1: every file written by a run of convert_mp3_to_wav is the decoded
source audio, resampled to 16000 Hz and then remixed to one channel, in that
order, placed at the joined output path; hence every produced output has
sample rate 16000 and channel count 1 regardless of the source sample rate
or channel layout. -/
theorem c1_outputs_are_16k_mono (env : Env) (i o : String) (log : RunLog)
    (h : convert_mp3_to_wav env i o = Except.ok log) :
    ∀ x ∈ log.written,
      (∃ f a, env.from_mp3 (pyJoin i f) = Except.ok a ∧
        x = (pyJoin o (output_filename f), (a.set_frame_rate 16000).set_channels 1)) ∧
      x.2.frame_rate = 16000 ∧ x.2.channels = 1 := by
  intro x hx
  simp only [convert_mp3_to_wav] at h
  split at h
  · cases h
    simp at hx
  · split at h
    · cases h
    · rename_i created hc
      cases h
      simp at hx
      obtain ⟨f, hf, hxf⟩ := convertLoop_written env i o _ x hx
      obtain ⟨a, ha, hxa⟩ := processFile_written env i o f x hxf
      refine ⟨⟨f, a, ha, hxa⟩, ?_, ?_⟩ <;> rw [hxa] <;> rfl

/-- C1 witness: a concrete run on a stereo 44100 Hz source yields the single
output at 16000 Hz mono. -/
theorem c1_witness :
    (∃ f a, envDemo.from_mp3 (pyJoin ("in") f) = Except.ok a ∧
      ((("out/song.wav"), (⟨16000, 1, [1, -1, 2]⟩ : AudioSegment)) : String × AudioSegment)
        = (pyJoin ("out") (output_filename f), (a.set_frame_rate 16000).set_channels 1)) ∧
    (⟨16000, 1, [1, -1, 2]⟩ : AudioSegment).frame_rate = 16000 ∧
    (⟨16000, 1, [1, -1, 2]⟩ : AudioSegment).channels = 1 := by
  have h := c1_outputs_are_16k_mono envDemo ("in") ("out")
    ⟨[("Processing: song.mp3 -> song.wav"), ("Saved WAV to: out/song.wav")],
     [(("out/song.wav"), ⟨16000, 1, [1, -1, 2]⟩)], []⟩ rfl
  exact h (("out/song.wav"), ⟨16000, 1, [1, -1, 2]⟩) (by simp)

/-- C2: a failure while converting one matched file (decoding or exporting)
is caught inside the per-file boundary and reported with the file name and
the error, nothing is written for it, and the remaining files of the batch
are processed exactly as they would have been: the run log is the earlier
conversions, then the two report lines for the failing file, then the later
conversions. -/
theorem c2_per_file_isolation (env : Env) (i o b e : String) (fs gs : List String)
    (hin : env.isdir i = true) (hout : env.isdir o = true)
    (hlist : env.listdir i = fs ++ b :: gs)
    (hb : pyEndsWith (pyLower b) (".mp3") = true)
    (hfail : env.from_mp3 (pyJoin i b) = Except.error e ∨
      ∃ a, env.from_mp3 (pyJoin i b) = Except.ok a ∧
        env.export_wav (pyJoin o (output_filename b))
          ((a.set_frame_rate 16000).set_channels 1) = Except.error e) :
    convert_mp3_to_wav env i o = Except.ok
      ((convertLoop env i o (mp3Filter fs)).append
        (RunLog.append
          ⟨[("Processing: ") ++ b ++ (" -> ") ++ output_filename b,
            ("Failed to convert ") ++ b ++ (": ") ++ e], [], []⟩
          (convertLoop env i o (mp3Filter gs)))) := by
  have hpf : processFile env i o b
      = ⟨[("Processing: ") ++ b ++ (" -> ") ++ output_filename b,
          ("Failed to convert ") ++ b ++ (": ") ++ e], [], []⟩ := by
    rcases hfail with hd | ⟨a, h1, h2⟩
    · exact processFile_of_decode_error env i o b e hd
    · exact processFile_of_export_error env i o b e a h1 h2
  have hsplit : mp3Filter (fs ++ b :: gs) = mp3Filter fs ++ b :: mp3Filter gs := by
    rw [mp3Filter_append]
    simp [mp3Filter, List.filter_cons, hb]
  simp [convert_mp3_to_wav, hin, hout, hlist, hsplit, convertLoop_append_list,
    convertLoop_cons, hpf]

/-- C2 witness: in a batch of three, the middle file fails to decode and the
other two still convert. -/
theorem c2_witness :
    convert_mp3_to_wav envBatch ("in") ("out") = Except.ok
      ((convertLoop envBatch ("in") ("out") (mp3Filter [("good.mp3")])).append
        (RunLog.append
          ⟨[("Processing: ") ++ ("bad.mp3") ++ (" -> ") ++ output_filename ("bad.mp3"),
            ("Failed to convert ") ++ ("bad.mp3") ++ (": ") ++ ("decode error")], [], []⟩
          (convertLoop envBatch ("in") ("out") (mp3Filter [("tail.mp3")])))) := by
  exact c2_per_file_isolation envBatch ("in") ("out") ("bad.mp3") ("decode error")
    [("good.mp3")] [("tail.mp3")] rfl rfl rfl (by decide) (Or.inl rfl)

/-- C3: the selection is exactly the listing entries whose name ends
case-insensitively with .mp3: a name is kept by the filter precisely when it
is listed and decomposes as a front part plus a tail lowercasing to .mp3,
and a run over existing folders performs the loop on precisely the filtered
names, so unmatched names are never decoded or converted. -/
theorem c3_filter_exactly_mp3 (files : List String) (f : String) :
    (f ∈ mp3Filter files ↔
      f ∈ files ∧ ∃ p t : String, f = p ++ t ∧ pyLower t = (".mp3")) ∧
    (∀ env : Env, ∀ i o : String, env.isdir i = true → env.isdir o = true →
      convert_mp3_to_wav env i o
        = Except.ok (convertLoop env i o (mp3Filter (env.listdir i)))) := by
  constructor
  · simp only [mp3Filter, List.mem_filter, pyEndsWith_lower_iff]
  · intro env i o hin hout
    simp [convert_mp3_to_wav, hin, hout]

/-- C3 witness: all three case variants are selected, a .Mp3x name is not,
and a concrete run converts exactly the selected names. -/
theorem c3_witness :
    (("SONG.MP3") ∈ mp3Filter [("SONG.MP3"), ("song.mp3"), ("Song.Mp3"), ("b.Mp3x")]) ∧
    mp3Filter [("SONG.MP3"), ("song.mp3"), ("Song.Mp3"), ("b.Mp3x"), ("notes.txt")]
      = [("SONG.MP3"), ("song.mp3"), ("Song.Mp3")] ∧
    convert_mp3_to_wav envDemo ("in") ("out")
      = Except.ok (convertLoop envDemo ("in") ("out")
          (mp3Filter (envDemo.listdir ("in")))) := by
  refine ⟨?_, by decide, ?_⟩
  · exact (c3_filter_exactly_mp3 [("SONG.MP3"), ("song.mp3"), ("Song.Mp3"), ("b.Mp3x")]
      ("SONG.MP3")).1.mpr ⟨by decide, ("SONG"), (".MP3"), by decide, by decide⟩
  · exact (c3_filter_exactly_mp3 [] ("")).2 envDemo ("in") ("out") rfl rfl

/-- C4 counterexample: the name .mp3 is matched by the filter, yet the loop
computes the output name .mp3.wav, not the stripped name plus .wav (which
would be .wav), because splitext finds no extension in a pure leading-dot
name: the target extension is appended rather than substituted. -/
theorem c4_counterexample :
    pyEndsWith (pyLower (".mp3")) (".mp3") = true ∧
    output_filename (".mp3") = (".mp3.wav") ∧
    ((⟨(".mp3").data.take ((".mp3").data.length - 4)⟩ : String) ++ (".wav")) = (".wav") ∧
    ¬ output_filename (".mp3") = (".wav") := by
  decide

/-- C4 (amended): for every matched name (no path separator, as with entries
of os.listdir), the loop output name is the name with its final four
characters (the .mp3 suffix) stripped plus .wav, provided some character
before that suffix is not a dot; when the name is only dots followed by the
extension (such as .mp3 or ..mp3), .wav is appended to the whole name
instead. In both cases the loop writes only to the join of the output folder
with that output name. -/
theorem c4_output_name (f : String) (hns : ('/') ∉ f.data)
    (h : pyEndsWith (pyLower f) (".mp3") = true) :
    (output_filename f =
      if (f.data.take (f.data.length - 4)).any (fun x => x ≠ '.') then
        (⟨f.data.take (f.data.length - 4)⟩ : String) ++ (".wav")
      else f ++ (".wav")) ∧
    (∀ env : Env, ∀ i o : String, ∀ x ∈ (processFile env i o f).written,
      x.1 = pyJoin o (output_filename f)) := by
  refine ⟨output_filename_of_matched f hns h, ?_⟩
  intro env i o x hx
  obtain ⟨a, ha, hxa⟩ := processFile_written env i o f x hx
  rw [hxa]

/-- C4 witness: the regular name song.mp3 gets the stripped base plus .wav. -/
theorem c4_witness : output_filename ("song.mp3") = ("song.wav") := by
  have h := (c4_output_name ("song.mp3") (by decide) (by decide)).1
  rw [h]
  decide

/-- C5: when the input folder is not an existing directory the run only
reports the error: nothing is written, no directory is created and no file
is processed. -/
theorem c5_missing_input_folder (env : Env) (i o : String)
    (h : env.isdir i = false) :
    convert_mp3_to_wav env i o
      = Except.ok ⟨[("Error: Input folder ") ++ i ++ (" does not exist.")], [], []⟩ := by
  simp [convert_mp3_to_wav, h]

/-- C5 witness: a concrete run with a missing input folder. -/
theorem c5_witness :
    convert_mp3_to_wav envNoInput ("in") ("out")
      = Except.ok ⟨[("Error: Input folder in does not exist.")], [], []⟩ :=
  c5_missing_input_folder envNoInput ("in") ("out") rfl

/-- C6: when the output folder is absent it is created (recursively, per the
makedirs model) before any conversion: a makedirs failure escapes uncaught
and aborts the whole run with no log at all, while a successful creation
yields a run whose created list is exactly the output folder. -/
theorem c6_output_folder_creation (env : Env) (i o e : String)
    (hin : env.isdir i = true) (hout : env.isdir o = false) :
    (env.makedirs o = Except.error e → convert_mp3_to_wav env i o = Except.error e) ∧
    (env.makedirs o = Except.ok () → ∃ log, convert_mp3_to_wav env i o = Except.ok log ∧
      log.created = [o]) := by
  constructor
  · intro hmk
    simp [convert_mp3_to_wav, hin, hout, hmk]
  · intro hmk
    refine ⟨RunLog.append ⟨[], [], [o]⟩
      (convertLoop env i o (mp3Filter (env.listdir i))), ?_, ?_⟩
    · simp [convert_mp3_to_wav, hin, hout, hmk]
    · simp [convertLoop_created]

/-- C6 witness: a run whose output folder cannot be created aborts with the
makedirs error. -/
theorem c6_witness :
    convert_mp3_to_wav envMkFail ("in") ("out") = Except.error ("cannot create") :=
  (c6_output_folder_creation envMkFail ("in") ("out") ("cannot create") rfl rfl).1 rfl

/-- C7: the toolchain is probed before any batch work: when the probe raises
an error whose lowercased message contains ffmpeg, main prints the
installation guidance and returns, writing nothing, creating nothing and
attempting no conversion. -/
theorem c7_ffmpeg_check (env : Env) (i o : String) (st : List String) (e : String)
    (hprobe : env.from_file ("test") = Except.error e)
    (hmsg : pyContains (pyLower e) ("ffmpeg") = true) :
    main_model env ⟨some i, some o⟩ st = Except.ok ⟨ffmpegGuidance, [], []⟩ := by
  simp [main_model, readFolder, hprobe, hmsg]

/-- C7 witness: a concrete environment whose probe names ffmpeg exits with
the guidance and performs no conversion. -/
theorem c7_witness :
    main_model envNoFfmpeg ⟨some ("in"), some ("out")⟩ []
      = Except.ok ⟨ffmpegGuidance, [], []⟩ :=
  c7_ffmpeg_check envNoFfmpeg ("in") ("out") [] ("FFmpeg was not found") rfl (by decide)

/-- C8: an omitted folder flag is prompted for interactively: the program
reads one line from standard input for each missing flag, strips surrounding
whitespace, prints the prompt, and then runs the conversion on the resolved
folders (stated for both flags missing and for each single flag missing,
with the toolchain probe succeeding). -/
theorem c8_interactive_prompts (env : Env) (a : AudioSegment) (i o l1 l2 : String)
    (rest : List String) (hprobe : env.from_file ("test") = Except.ok a) :
    (main_model env ⟨none, none⟩ (l1 :: l2 :: rest)
        = prependPrinted [promptIn, promptOut]
            (convert_mp3_to_wav env (pyStrip l1) (pyStrip l2))) ∧
    (main_model env ⟨some i, none⟩ (l1 :: rest)
        = prependPrinted [promptOut] (convert_mp3_to_wav env i (pyStrip l1))) ∧
    (main_model env ⟨none, some o⟩ (l1 :: rest)
        = prependPrinted [promptIn] (convert_mp3_to_wav env (pyStrip l1) o)) := by
  refine ⟨?_, ?_, ?_⟩ <;> simp [main_model, readFolder, hprobe]

/-- C8 witness: with both flags omitted, two padded input lines are read,
stripped and used as the folders. -/
theorem c8_witness :
    main_model envDemo ⟨none, none⟩ [("  in "), (" out ")]
      = prependPrinted [promptIn, promptOut]
          (convert_mp3_to_wav envDemo (pyStrip ("  in ")) (pyStrip (" out "))) :=
  (c8_interactive_prompts envDemo sampleAudio ("x") ("y") ("  in ") (" out ") [] rfl).1

/-- C9: a name that is nothing but the extension in any letter case (its
lowercasing is exactly .mp3) passes the filter, yet splitext strips nothing,
so the loop appends .wav to the whole name, producing for example .mp3.wav
from .mp3. -/
theorem c9_extension_only_name (f : String) (h : pyLower f = (".mp3")) :
    pyEndsWith (pyLower f) (".mp3") = true ∧ output_filename f = f ++ (".wav") := by
  have hmatch : pyEndsWith (pyLower f) (".mp3") = true := by
    rw [h]
    decide
  refine ⟨hmatch, ?_⟩
  have hns : ('/') ∉ f.data := by
    intro hm
    have hmem : Char.toLower ('/') ∈ (pyLower f).data :=
      List.mem_map_of_mem Char.toLower hm
    rw [h] at hmem
    simp at hmem
  have hlen : f.data.length = 4 := by
    have hl := congrArg (fun s : String => s.data.length) h
    simpa [pyLower] using hl
  rw [output_filename_of_matched f hns hmatch, hlen]
  simp

/-- C9 witness: the upper case variant .MP3 is matched and maps to
.MP3.wav. -/
theorem c9_witness :
    pyEndsWith (pyLower (".MP3")) (".mp3") = true ∧
    output_filename (".MP3") = (".MP3") ++ (".wav") :=
  c9_extension_only_name (".MP3") (by decide)

/-- C10: with an existing input folder, the absent output folder is created
before listing and filtering, so a run whose listing has no matching name
still creates the output folder and does nothing else. -/
theorem c10_output_created_without_matches (env : Env) (i o : String)
    (hin : env.isdir i = true) (hout : env.isdir o = false)
    (hmk : env.makedirs o = Except.ok ())
    (hnone : mp3Filter (env.listdir i) = []) :
    convert_mp3_to_wav env i o = Except.ok ⟨[], [], [o]⟩ := by
  simp [convert_mp3_to_wav, hin, hout, hmk, hnone, convertLoop]

/-- C10 witness: a listing with only a text file still creates the output
folder. -/
theorem c10_witness :
    convert_mp3_to_wav envNoMatch ("in") ("out") = Except.ok ⟨[], [], [("out")]⟩ :=
  c10_output_created_without_matches envNoMatch ("in") ("out") rfl rfl rfl (by decide)
